import Mathlib

/-!
Shallow embedding of `src/main.py` of the confluence-to-markdown batch tool,
together with proofs of the frozen claims about it.

Modelling conventions:
- Python strings are Lean `String`s; `None`-able values are `Option`s.
- `urlparse` (standard library) is treated as a black box delivering the URL
  components; a URL enters `parse_confluence_url` as a `ParsedUrl` record of
  scheme, netloc, path and query, exactly the four components the source reads.
- `parse_qs` (standard library) is modelled by `qsPairs`/`qsGetFirst`:
  split the query on the ampersand, drop empty fields and fields with an empty
  value (`keep_blank_values=False`), split each field at the first equals sign,
  and percent-plus-decode names and values (`unquotePlus`; single-byte decoding,
  which agrees with CPython on all ASCII inputs, the only ones the claims use).
- `re.search` applied to the literal pattern matching a slash-pages-slash
  segment followed by one or more digits is modelled by `searchPagesId`:
  the leftmost position where the pattern matches, with a greedy (maximal)
  digit run, exactly the semantics of `re.search` for this pattern.
  The digit class is modelled as ASCII digits (`Char.isDigit`).
- Network effects are modelled by oracle function parameters (`net` for the
  user-lookup endpoint, `fetch` for the page endpoint) plus an explicit count
  of network calls performed, returned alongside each result.
- The HTML-to-Markdown conversion (`markdownify`, external library) is an
  uninterpreted function parameter `mdConv`.
-/

/-- Prepend a character to the first field of a split result. -/
def consHead (c : Char) : List (List Char) → List (List Char)
  | [] => [[c]]
  | l :: ls => (c :: l) :: ls

/-- Model of Python list-of-chars splitting on a separator character, with the
semantics of `str.split(sep)`: `"".split(sep) == ['']`, separators delimit
possibly-empty fields. -/
def splitOnChar (sep : Char) : List Char → List (List Char)
  | [] => [[]]
  | c :: rest =>
    if c = sep then [] :: splitOnChar sep rest
    else consHead c (splitOnChar sep rest)

/-- Splitting a character list into lines at newline characters. -/
def splitLines (l : List Char) : List (List Char) :=
  splitOnChar '\n' l

/-- Model of the Python substring test `needle in hay`. -/
def substrContains (hay needle : List Char) : Bool :=
  match hay with
  | [] => needle.isEmpty
  | c :: rest => needle.isPrefixOf (c :: rest) || substrContains rest needle

/-- Value of a hexadecimal digit character, if it is one. -/
def hexVal (c : Char) : Option Nat :=
  if '0' ≤ c ∧ c ≤ '9' then some (c.toNat - '0'.toNat)
  else if 'a' ≤ c ∧ c ≤ 'f' then some (c.toNat - 'a'.toNat + 10)
  else if 'A' ≤ c ∧ c ≤ 'F' then some (c.toNat - 'A'.toNat + 10)
  else none

/-- Model of `urllib.parse.unquote_plus` restricted to single-byte escapes:
plus becomes space, a percent followed by two hex digits becomes that byte,
everything else is copied. (CPython additionally UTF-8-decodes multi-byte
escape runs; on ASCII data, the only data the claims exercise, the two agree.) -/
def unquotePlus : List Char → List Char
  | [] => []
  | c :: rest =>
    if c = '+' then ' ' :: unquotePlus rest
    else if c = '%' then
      match rest with
      | h1 :: h2 :: rest2 =>
        match hexVal h1, hexVal h2 with
        | some a, some b => Char.ofNat (16 * a + b) :: unquotePlus rest2
        | _, _ => '%' :: unquotePlus (h1 :: h2 :: rest2)
      | [h1] => '%' :: unquotePlus [h1]
      | [] => ['%']
    else c :: unquotePlus rest

/-- Model of Python `str.partition('=')` restricted to the two components the
source uses: the part before the first equals sign and the part after it
(both empty-tailed when there is no equals sign, matching `partition`). -/
def partitionAtEq : List Char → List Char × List Char
  | [] => ([], [])
  | '=' :: rest => ([], rest)
  | c :: rest =>
    let p := partitionAtEq rest
    (c :: p.1, p.2)

/-- Model of `urllib.parse.parse_qsl` with default arguments: split the query
on ampersands, skip empty fields, split each field at the first equals sign,
keep only fields with a non-empty raw value, decode names and values. -/
def qsPairs (q : List Char) : List (List Char × List Char) :=
  (splitOnChar '&' q).filterMap fun seg =>
    if seg = [] then none
    else
      let p := partitionAtEq seg
      if p.2 = [] then none
      else some (unquotePlus p.1, unquotePlus p.2)

/-- Model of `parse_qs(query).get(key, [None])[0]`: the value of the first
query field whose decoded name equals `key`, if any. -/
def qsGetFirst (q : String) (key : String) : Option String :=
  match (qsPairs q.data).find? (fun p => p.1 == key.data) with
  | some p => some (String.mk p.2)
  | none => none

/-- The characters of the fixed path fragment the page-id regex looks for. -/
def pagesPat : List Char := ['/', 'p', 'a', 'g', 'e', 's', '/']

/-- Leading maximal run of ASCII digits, the greedy match of one-or-more-digits. -/
def takeDigits (l : List Char) : List Char :=
  l.takeWhile Char.isDigit

/-- Whether the page-id regex matches at the start of the given suffix:
the fixed fragment followed by at least one digit. -/
def hitAt (l : List Char) : Bool :=
  pagesPat.isPrefixOf l && !(takeDigits (l.drop 7)).isEmpty

/-- Model of `re.search` for the page-id pattern: scan left to right for the
first suffix where the pattern matches and return its greedy digit group. -/
def searchPagesId : List Char → Option (List Char)
  | [] => none
  | c :: rest =>
    if hitAt (c :: rest) then some (takeDigits ((c :: rest).drop 7))
    else searchPagesId rest

/-- The components of a URL as returned by `urllib.parse.urlparse`, restricted
to the four the source reads. -/
structure ParsedUrl where
  scheme : String
  netloc : String
  path : String
  query : String
deriving DecidableEq, Repr

/-- The base URL the parser derives: `{scheme}://{netloc}/wiki` (main.py:82). -/
def baseUrlOf (u : ParsedUrl) : String :=
  u.scheme ++ "://" ++ u.netloc ++ "/wiki"

/-- The `viewpage.action` query branch of the parser (main.py:85-89): if the
path contains the string `viewpage.action`, the first `pageId` query value. -/
def pageIdFromQuery (u : ParsedUrl) : Option String :=
  if substrContains u.path.data "viewpage.action".data then
    qsGetFirst u.query "pageId"
  else none

/-- Embedding of `parse_confluence_url` (main.py:76-101): the query branch
first, then the path-regex branch, else failure (`None, None`). -/
def parse_confluence_url (u : ParsedUrl) : Option (String × String) :=
  let base_url := baseUrlOf u
  match pageIdFromQuery u with
  | some page_id => some (base_url, page_id)
  | none =>
    match searchPagesId u.path.data with
    | some ds => some (base_url, String.mk ds)
    | none => none

/-- The user-lookup HTTP response, as the source consumes it: a status code
and the `displayName` field of the JSON body, when present (main.py:65-68). -/
structure UserResponse where
  status_code : Nat
  displayName : Option String
deriving DecidableEq, Repr

/-- Embedding of `get_display_name` (main.py:46-73). The network is the oracle
`net`; the dict cache is an association list (most recent write first, matching
dict lookup since keys are written at most once per state). Returns the display
name, the updated cache, and the number of network calls performed (0 or 1). -/
def get_display_name (account_id : Option String) (net : String → UserResponse)
    (cache : List (String × String)) : String × List (String × String) × Nat :=
  match account_id with
  | none => ("不明な作成者", cache, 0)
  | some aid =>
    if aid = "" then ("不明な作成者", cache, 0)
    else
      match cache.lookup aid with
      | some v => (v, cache, 0)
      | none =>
        let response := net aid
        if response.status_code = 200 then
          let display_name := response.displayName.getD aid
          (display_name, (aid, display_name) :: cache, 1)
        else
          (aid, cache, 1)

/-- The `_links` object of a page JSON, restricted to the field the source reads. -/
structure PageLinks where
  webui : Option String
deriving DecidableEq, Repr

/-- The `version` object of a page JSON, restricted to the field the source reads. -/
structure PageVersion where
  friendlyWhen : Option String
deriving DecidableEq, Repr

/-- The `space` object of a page JSON, restricted to the fields the source reads. -/
structure PageSpace where
  key : Option String
  name : Option String
deriving DecidableEq, Repr

/-- The `history.createdBy` object of a page JSON. -/
structure PageCreatedBy where
  accountId : Option String
deriving DecidableEq, Repr

/-- The `history` object of a page JSON. -/
structure PageHistory where
  createdBy : Option PageCreatedBy
deriving DecidableEq, Repr

/-- The `body.storage` object of a page JSON. -/
structure PageStorage where
  value : Option String
deriving DecidableEq, Repr

/-- The `body` object of a page JSON. -/
structure PageBody where
  storage : Option PageStorage
deriving DecidableEq, Repr

/-- A page JSON object as returned by a successful `get_page`, restricted to
the keys the source reads; every key may be absent (`.get` with defaults). -/
structure Page where
  title : Option String
  body : Option PageBody
  history : Option PageHistory
  space : Option PageSpace
  links : Option PageLinks
  version : Option PageVersion
deriving DecidableEq, Repr

/-- Python string interpolation of a possibly-`None` value: `f"{x}"` prints
the literal `None` for an absent value. -/
def pyStr : Option String → String
  | none => "None"
  | some s => s

/-- `page.get("body", {}).get("storage", {}).get("value", "")` (main.py:126). -/
def pageContents (page : Page) : String :=
  (((page.body.bind PageBody.storage).bind PageStorage.value)).getD ""

/-- Embedding of `extract_data_from_html` (main.py:32-43): delegation to the
external HTML-to-Markdown converter, an uninterpreted function `mdConv`. -/
def extract_data_from_html (mdConv : String → String) (html_content : String) : String :=
  mdConv html_content

/-- `page.get("history", {}).get("createdBy", {}).get('accountId')` (main.py:129-130). -/
def creatorAccountId (page : Page) : Option String :=
  (page.history.bind PageHistory.createdBy).bind PageCreatedBy.accountId

/-- `page.get('title', 'No Title')` (main.py:133). -/
def pageTitleOf (page : Page) : String :=
  page.title.getD "No Title"

/-- `space_info.get('name', space_key)` where `space_info = page.get('space', {})`
and `space_key = space_info.get('key')` (main.py:134-136). -/
def spaceNameOf (page : Page) : Option String :=
  match page.space with
  | none => none
  | some s =>
    match s.name with
    | some n => some n
    | none => s.key

/-- `page.get('_links', {}).get('webui', url)` (main.py:138). -/
def pageLinkOf (page : Page) (url : String) : String :=
  match page.links with
  | none => url
  | some ls => ls.webui.getD url

/-- `page.get('version', {}).get('friendlyWhen', 'N/A')` (main.py:139). -/
def lastUpdatedOf (page : Page) : String :=
  (page.version.bind PageVersion.friendlyWhen).getD "N/A"

/-- The `markdown_content` string assembled in main.py:141-146: five header
lines, a blank line, the converted body, a final blank line. -/
def format_markdown_content (title link space creator updated body : String) : String :=
  "# " ++ title ++ "\n"
    ++ ("URL: " ++ link ++ "\n")
    ++ ("スペース: " ++ space ++ "\n")
    ++ ("作成者: " ++ creator ++ "\n")
    ++ ("最終更新日: " ++ updated ++ "\n\n")
    ++ (body ++ "\n\n")

/-- The per-page body of the loop in main.py:125-148 once a page has been
fetched: resolve the creator's display name through the shared cache, compute
every field with its fallback, and assemble the block that is appended to the
file. Returns the block, the updated cache, and the user-lookup call count. -/
def renderPage (net : String → UserResponse) (mdConv : String → String)
    (page : Page) (url : String) (cache : List (String × String)) :
    String × List (String × String) × Nat :=
  let text_content := extract_data_from_html mdConv (pageContents page)
  let r := get_display_name (creatorAccountId page) net cache
  (format_markdown_content (pageTitleOf page) (pageLinkOf page url)
      (pyStr (spaceNameOf page)) r.1 (lastUpdatedOf page) text_content,
    r.2.1, r.2.2)

/-- Embedding of the loop of `process_pages_from_urls` (main.py:117-154).
`urlparse` models the standard library's URL splitter; `fetch pid base` models
`get_page` (one network call, `none` on any caught request error). Returns the
blocks appended to the output file, in order, and the total network-call count
(page fetches plus user lookups). The cache argument threads `user_cache`. -/
def process_pages_from_urls (urlparse : String → ParsedUrl)
    (fetch : String → String → Option Page) (net : String → UserResponse)
    (mdConv : String → String) :
    List String → List (String × String) → List String × Nat
  | [], _cache => ([], 0)
  | url :: rest, cache =>
    match parse_confluence_url (urlparse url) with
    | none => process_pages_from_urls urlparse fetch net mdConv rest cache
    | some (base_url, page_id) =>
      if page_id = "" ∨ base_url = "" then
        process_pages_from_urls urlparse fetch net mdConv rest cache
      else
        match fetch page_id base_url with
        | none =>
          let r := process_pages_from_urls urlparse fetch net mdConv rest cache
          (r.1, r.2 + 1)
        | some page =>
          let b := renderPage net mdConv page url cache
          let r := process_pages_from_urls urlparse fetch net mdConv rest b.2.1
          (b.1 :: r.1, r.2 + 1 + b.2.2)

/-- The terminal outcome of one run of `main` (main.py:156-184). -/
inductive MainResult where
  | missingCredentials : MainResult
  | missingUrlFile : MainResult
  | emptyUrlList : MainResult
  | ran : List String → MainResult
deriving DecidableEq, Repr

/-- Python truthiness of an optional string: `None` and `""` are falsy. -/
def pyTruthyStr : Option String → Bool
  | none => false
  | some s => s ≠ ""

/-- Model of Python `str.strip()`: remove leading and trailing whitespace. -/
def pyStrip (s : String) : String :=
  String.mk
    (((s.data.dropWhile Char.isWhitespace).reverse.dropWhile Char.isWhitespace).reverse)

/-- `[line.strip() for line in f if line.strip()]` (main.py:174). -/
def stripLines (ls : List String) : List String :=
  ls.filterMap fun line =>
    let s := pyStrip line
    if s = "" then none else some s

/-- Embedding of `main` (main.py:156-184): credential check, URL-file read,
blank-line stripping, empty-list check, then the batch. The environment and
the file system are inputs (`api_token`, `user_name`, `urlFile` is `none` when
`urls.txt` is missing, otherwise its lines). Returns the outcome plus the
total number of network calls performed. -/
def mainRun (api_token user_name : Option String) (urlFile : Option (List String))
    (urlparse : String → ParsedUrl) (fetch : String → String → Option Page)
    (net : String → UserResponse) (mdConv : String → String) : MainResult × Nat :=
  if ¬ (pyTruthyStr api_token && pyTruthyStr user_name) then
    (MainResult.missingCredentials, 0)
  else
    match urlFile with
    | none => (MainResult.missingUrlFile, 0)
    | some fileLines =>
      let page_urls := stripLines fileLines
      if page_urls = [] then (MainResult.emptyUrlList, 0)
      else
        let r := process_pages_from_urls urlparse fetch net mdConv page_urls []
        (MainResult.ran r.1, r.2)

/-- `List.lookup` on the empty association list. -/
theorem lookup_nil_eq_none (aid : String) :
    ([] : List (String × String)).lookup aid = none := rfl

/-- C1 (amended): when the user-lookup endpoint answers the account id with
HTTP 200, two successive resolver calls with the same non-empty id, starting
from the empty cache, perform exactly one network call in total (one on the
first call, none on the second) and return the same value. -/
theorem display_name_single_lookup (aid : String) (net : String → UserResponse)
    (hid : aid ≠ "") (h200 : (net aid).status_code = 200) :
    (get_display_name (some aid) net []).2.2 = 1 ∧
    (get_display_name (some aid) net (get_display_name (some aid) net []).2.1).2.2 = 0 ∧
    (get_display_name (some aid) net (get_display_name (some aid) net []).2.1).1 =
      (get_display_name (some aid) net []).1 := by
  simp [get_display_name, hid, h200, List.lookup]

/-- Witness for `display_name_single_lookup` at a concrete id and network. -/
theorem display_name_single_lookup_witness :
    (get_display_name (some "u1") (fun _ => UserResponse.mk 200 (some "Jane Doe")) []).2.2 = 1 ∧
    (get_display_name (some "u1") (fun _ => UserResponse.mk 200 (some "Jane Doe"))
        (get_display_name (some "u1") (fun _ => UserResponse.mk 200 (some "Jane Doe")) []).2.1).2.2 = 0 ∧
    (get_display_name (some "u1") (fun _ => UserResponse.mk 200 (some "Jane Doe"))
        (get_display_name (some "u1") (fun _ => UserResponse.mk 200 (some "Jane Doe")) []).2.1).1 =
      (get_display_name (some "u1") (fun _ => UserResponse.mk 200 (some "Jane Doe")) []).1 :=
  display_name_single_lookup "u1" (fun _ => UserResponse.mk 200 (some "Jane Doe"))
    (by decide) rfl

/-- C1 (counterexample): with a network that answers the user lookup with
status 500, two resolver calls with the same non-empty id against an initially
empty cache perform two network calls, not one — there is no cache write on a
non-200 response, so the claimed at-most-one-lookup invariant fails. -/
theorem display_name_retry_counterexample :
    (get_display_name (some "u1") (fun _ => UserResponse.mk 500 none) []).2.2 +
      (get_display_name (some "u1") (fun _ => UserResponse.mk 500 none)
        (get_display_name (some "u1") (fun _ => UserResponse.mk 500 none) []).2.1).2.2 = 2 ∧
    ¬ ((get_display_name (some "u1") (fun _ => UserResponse.mk 500 none) []).2.2 +
      (get_display_name (some "u1") (fun _ => UserResponse.mk 500 none)
        (get_display_name (some "u1") (fun _ => UserResponse.mk 500 none) []).2.1).2.2 = 1) := by
  decide

/-- C4: on a non-200 user-lookup response (for a non-empty id not in the
cache), the resolver returns the raw account id, leaves the cache unmodified,
performs one network call, and a subsequent call with the same id performs a
network call again. -/
theorem display_name_non200 (aid : String) (net : String → UserResponse)
    (cache : List (String × String)) (hid : aid ≠ "")
    (hmiss : cache.lookup aid = none) (hstatus : (net aid).status_code ≠ 200) :
    get_display_name (some aid) net cache = (aid, cache, 1) ∧
    (get_display_name (some aid) net
        (get_display_name (some aid) net cache).2.1).2.2 = 1 := by
  simp [get_display_name, hid, hmiss, hstatus]

/-- Witness for `display_name_non200` at a concrete id, cache and network. -/
theorem display_name_non200_witness :
    get_display_name (some "u2") (fun _ => UserResponse.mk 404 none) [] = ("u2", [], 1) ∧
    (get_display_name (some "u2") (fun _ => UserResponse.mk 404 none)
        (get_display_name (some "u2") (fun _ => UserResponse.mk 404 none) []).2.1).2.2 = 1 :=
  display_name_non200 "u2" (fun _ => UserResponse.mk 404 none) [] (by decide) rfl
    (by decide)

/-- C5 (amended): for an absent or empty account id the resolver performs zero
network calls, leaves the cache untouched, and returns the fixed fallback
label, whose literal text is the Japanese 不明な作成者 (unknown creator). -/
theorem display_name_empty_fallback (a : Option String) (net : String → UserResponse)
    (cache : List (String × String)) (ha : a = none ∨ a = some "") :
    get_display_name a net cache = ("不明な作成者", cache, 0) := by
  rcases ha with h | h <;> subst h <;> simp [get_display_name]

/-- Witness for `display_name_empty_fallback` at both falsy account ids. -/
theorem display_name_empty_fallback_witness :
    get_display_name none (fun _ => UserResponse.mk 200 (some "X")) [] =
      ("不明な作成者", [], 0) ∧
    get_display_name (some "") (fun _ => UserResponse.mk 200 (some "X")) [] =
      ("不明な作成者", [], 0) :=
  ⟨display_name_empty_fallback none _ [] (Or.inl rfl),
   display_name_empty_fallback (some "") _ [] (Or.inr rfl)⟩

/-- C5 (counterexample): the fallback label returned for an absent or empty
account id is not the ASCII string `unknown creator`; the code's literal is
the Japanese 不明な作成者. -/
theorem display_name_empty_label_counterexample :
    (get_display_name none (fun _ => UserResponse.mk 200 (some "X")) []).1 ≠
      "unknown creator" ∧
    (get_display_name (some "") (fun _ => UserResponse.mk 200 (some "X")) []).1 ≠
      "unknown creator" ∧
    (get_display_name none (fun _ => UserResponse.mk 200 (some "X")) []).2.2 = 0 := by
  decide

/-- C9: when the page JSON has no `_links.webui` (either no `_links` object or
no `webui` key), the link used in the block is the original input URL, and the
rendered block is the formatted block built with that URL on its URL line. -/
theorem page_link_fallback (page : Page) (url : String)
    (h : page.links = none ∨ ∃ ls, page.links = some ls ∧ ls.webui = none) :
    pageLinkOf page url = url ∧
    ∀ (net : String → UserResponse) (mdConv : String → String)
      (cache : List (String × String)),
      (renderPage net mdConv page url cache).1 =
        format_markdown_content (pageTitleOf page) url (pyStr (spaceNameOf page))
          (get_display_name (creatorAccountId page) net cache).1 (lastUpdatedOf page)
          (extract_data_from_html mdConv (pageContents page)) := by
  have hlink : pageLinkOf page url = url := by
    rcases h with h | ⟨ls, h, hw⟩
    · simp [pageLinkOf, h]
    · simp [pageLinkOf, h, hw]
  exact ⟨hlink, fun net mdConv cache => by simp [renderPage, hlink]⟩

/-- Witness for `page_link_fallback` with a page record lacking `_links`. -/
theorem page_link_fallback_witness :
    pageLinkOf (Page.mk none none none none none none) "https://in.example/p" =
        "https://in.example/p" ∧
    ∀ (net : String → UserResponse) (mdConv : String → String)
      (cache : List (String × String)),
      (renderPage net mdConv (Page.mk none none none none none none)
          "https://in.example/p" cache).1 =
        format_markdown_content (pageTitleOf (Page.mk none none none none none none))
          "https://in.example/p"
          (pyStr (spaceNameOf (Page.mk none none none none none none)))
          (get_display_name (creatorAccountId (Page.mk none none none none none none))
            net cache).1
          (lastUpdatedOf (Page.mk none none none none none none))
          (extract_data_from_html mdConv
            (pageContents (Page.mk none none none none none none))) :=
  page_link_fallback (Page.mk none none none none none none) "https://in.example/p"
    (Or.inl rfl)

/-- C10: when the page JSON has a `space` object without a `name`, the space
value is `space.key`; when additionally `key` is absent, the value printed on
the space line is Python's `None` marker, not a documented fallback literal. -/
theorem space_name_fallback (page : Page) (s : PageSpace)
    (hs : page.space = some s) (hn : s.name = none) :
    spaceNameOf page = s.key ∧
    (s.key = none → pyStr (spaceNameOf page) = "None") := by
  constructor
  · simp [spaceNameOf, hs, hn]
  · intro hk
    simp [spaceNameOf, hs, hn, hk, pyStr]

/-- Witness for `space_name_fallback` with a space object with a key only and
one with neither key nor name. -/
theorem space_name_fallback_witness :
    (spaceNameOf (Page.mk none none none (some (PageSpace.mk (some "ENG") none)) none none) =
        some "ENG" ∧
      (some "ENG" = (none : Option String) →
        pyStr (spaceNameOf (Page.mk none none none
          (some (PageSpace.mk (some "ENG") none)) none none)) = "None")) ∧
    (spaceNameOf (Page.mk none none none (some (PageSpace.mk none none)) none none) =
        none ∧
      ((none : Option String) = none →
        pyStr (spaceNameOf (Page.mk none none none
          (some (PageSpace.mk none none)) none none)) = "None")) :=
  ⟨space_name_fallback _ (PageSpace.mk (some "ENG") none) rfl rfl,
   space_name_fallback _ (PageSpace.mk none none) rfl rfl⟩

/-- Decoding a non-empty percent-encoded text yields a non-empty text. -/
theorem unquotePlus_cons_ne_nil (c : Char) (rest : List Char) :
    unquotePlus (c :: rest) ≠ [] := by
  rw [unquotePlus.eq_def]
  repeat' split
  all_goals simp_all

/-- A query value delivered by the `parse_qs` model is never the empty string
(`parse_qs` drops fields with an empty raw value). -/
theorem qsGetFirst_ne_empty (q key v : String) (h : qsGetFirst q key = some v) :
    v ≠ "" := by
  unfold qsGetFirst at h
  cases hf : (qsPairs q.data).find? (fun p => p.1 == key.data) with
  | none => rw [hf] at h; cases h
  | some p =>
    rw [hf] at h
    injection h with h
    subst h
    have hmem : p ∈ qsPairs q.data := List.mem_of_find?_eq_some hf
    unfold qsPairs at hmem
    rw [List.mem_filterMap] at hmem
    obtain ⟨seg, _, hseg⟩ := hmem
    by_cases h1 : seg = []
    · simp [h1] at hseg
    · by_cases h2 : (partitionAtEq seg).2 = []
      · simp [h1, h2] at hseg
      · simp [h1, h2] at hseg
        intro hv
        have hd : p.2 = [] := by simpa using congrArg String.data hv
        rw [← hseg] at hd
        cases hval : (partitionAtEq seg).2 with
        | nil => exact h2 hval
        | cons c rest =>
          rw [hval] at hd
          exact unquotePlus_cons_ne_nil c rest hd

/-- Everything `takeWhile` keeps satisfies the predicate. -/
theorem takeWhile_all (p : Char → Bool) (l : List Char) :
    (l.takeWhile p).all p = true := by
  induction l with
  | nil => rfl
  | cons c rest ih =>
    cases hp : p c with
    | false => simp [List.takeWhile_cons, hp]
    | true => simp [List.takeWhile_cons, hp, ih]

/-- `takeWhile` on an all-satisfying block followed by a non-satisfying tail
keeps exactly the block (greedy maximal match of the digit group). -/
theorem takeWhile_append_all (p : Char → Bool) (ds post : List Char)
    (hall : ds.all p = true) (hpost : post.takeWhile p = []) :
    (ds ++ post).takeWhile p = ds := by
  induction ds with
  | nil => rw [List.nil_append]; exact hpost
  | cons c t ih =>
    simp only [List.all_cons, Bool.and_eq_true] at hall
    simp [List.takeWhile_cons, hall.1, ih hall.2]

/-- A successful regex search yields a non-empty, all-digit group. -/
theorem searchPagesId_some (l ds : List Char) (h : searchPagesId l = some ds) :
    ds ≠ [] ∧ ds.all Char.isDigit = true := by
  induction l with
  | nil => simp [searchPagesId] at h
  | cons c rest ih =>
    rw [searchPagesId] at h
    by_cases hh : hitAt (c :: rest) = true
    · rw [if_pos hh] at h
      injection h with h
      subst h
      constructor
      · unfold hitAt at hh
        have hne := (Bool.and_eq_true _ _).mp hh |>.2
        intro hnil
        rw [hnil] at hne
        simp at hne
      · exact takeWhile_all Char.isDigit _
    · rw [if_neg hh] at h
      exact ih h

/-- When the regex matches at the head of the text, the search returns the
greedy digit group there. -/
theorem searchPagesId_hit (l : List Char) (h : hitAt l = true) :
    searchPagesId l = some (takeDigits (l.drop 7)) := by
  cases l with
  | nil => simp [hitAt, pagesPat, List.isPrefixOf] at h
  | cons c rest => rw [searchPagesId, if_pos h]

/-- The search skips any region with no match: leftmost-match semantics. -/
theorem searchPagesId_skip (pre tail : List Char)
    (h : ∀ i, i < pre.length → hitAt ((pre ++ tail).drop i) = false) :
    searchPagesId (pre ++ tail) = searchPagesId tail := by
  induction pre with
  | nil => simp
  | cons c t ih =>
    have h0 : hitAt (c :: (t ++ tail)) = false := by
      have h' := h 0 (by simp)
      simpa using h'
    have hrest : ∀ i, i < t.length → hitAt ((t ++ tail).drop i) = false := by
      intro i hi
      have h' := h (i + 1) (by simp; omega)
      simpa using h'
    rw [List.cons_append, searchPagesId, if_neg (by simp [h0])]
    exact ih hrest

/-- C2 (amended): every accepted URL yields a baseUrl of the exact shape
`{scheme}://{netloc}/wiki` and a non-empty pageId; the pageId is numeric
whenever the query branch did not fire (i.e. it came from the path regex),
but the `viewpage.action` query branch returns the `pageId` parameter
verbatim, which need not be numeric; and when neither shape yields an id,
parsing fails. -/
theorem parse_url_invariant (u : ParsedUrl) :
    (∀ b pid, parse_confluence_url u = some (b, pid) →
      b = u.scheme ++ "://" ++ u.netloc ++ "/wiki" ∧ pid ≠ "" ∧
      (pageIdFromQuery u = none → pid.data.all Char.isDigit = true)) ∧
    (pageIdFromQuery u = none → searchPagesId u.path.data = none →
      parse_confluence_url u = none) := by
  constructor
  · intro b pid h
    unfold parse_confluence_url at h
    cases hque : pageIdFromQuery u with
    | some v =>
      rw [hque] at h
      simp only [Option.some.injEq, Prod.mk.injEq] at h
      obtain ⟨hb, hv⟩ := h
      subst hb
      subst hv
      refine ⟨rfl, ?_, ?_⟩
      · have hqs : qsGetFirst u.query "pageId" = some v := by
          unfold pageIdFromQuery at hque
          by_cases hc : substrContains u.path.data "viewpage.action".data = true
          · rwa [if_pos hc] at hque
          · rw [if_neg hc] at hque
            cases hque
        exact qsGetFirst_ne_empty _ _ _ hqs
      · simp [hque]
    | none =>
      rw [hque] at h
      cases hs : searchPagesId u.path.data with
      | none => rw [hs] at h; cases h
      | some ds =>
        rw [hs] at h
        simp only [Option.some.injEq, Prod.mk.injEq] at h
        obtain ⟨hb, hv⟩ := h
        subst hb
        subst hv
        obtain ⟨hne, hdig⟩ := searchPagesId_some _ _ hs
        refine ⟨rfl, ?_, fun _ => hdig⟩
        intro hmk
        exact hne (by simpa using congrArg String.data hmk)
  · intro h1 h2
    simp [parse_confluence_url, h1, h2]

/-- Witness for `parse_url_invariant`: the path-shape URL
`https://example.com/spaces/X/pages/9/T` and the shapeless URL
`https://example.com/display/X/T`. -/
theorem parse_url_invariant_witness :
    ("https://example.com/wiki" =
        (ParsedUrl.mk "https" "example.com" "/spaces/X/pages/9/T" "").scheme ++ "://" ++
          (ParsedUrl.mk "https" "example.com" "/spaces/X/pages/9/T" "").netloc ++ "/wiki" ∧
      "9" ≠ "" ∧
      (pageIdFromQuery (ParsedUrl.mk "https" "example.com" "/spaces/X/pages/9/T" "") = none →
        "9".data.all Char.isDigit = true)) ∧
    parse_confluence_url (ParsedUrl.mk "https" "example.com" "/display/X/T" "") = none :=
  ⟨(parse_url_invariant (ParsedUrl.mk "https" "example.com" "/spaces/X/pages/9/T" "")).1
      "https://example.com/wiki" "9" (by decide),
   (parse_url_invariant (ParsedUrl.mk "https" "example.com" "/display/X/T" "")).2
      (by decide) (by decide)⟩

/-- C2 (counterexample): the URL
`https://example.com/pages/viewpage.action?pageId=abc` is accepted by the
parser with the non-numeric pageId `abc`, refuting the invariant that the
returned pageId is always numeric (and that parsing fails when no shape
yields a numeric id). -/
theorem parse_url_nonnumeric_counterexample :
    parse_confluence_url
        (ParsedUrl.mk "https" "example.com" "/pages/viewpage.action" "pageId=abc") =
      some ("https://example.com/wiki", "abc") ∧
    "abc".data.all Char.isDigit = false := by decide

/-- C7: for a URL whose path decomposes as `pre ++ "/pages/" ++ ds ++ post`
with `ds` a non-empty digit run, `post` not starting with a digit (greedy
maximality), no regex match inside `pre` (leftmost match), and whose query
branch does not fire, the parser returns exactly `ds` as the page id. -/
theorem pages_path_extraction (u : ParsedUrl) (pre ds post : List Char)
    (hpath : u.path.data = pre ++ pagesPat ++ ds ++ post)
    (hds : ds ≠ []) (hall : ds.all Char.isDigit = true)
    (hpost : takeDigits post = [])
    (hleft : ∀ i, i < pre.length →
      hitAt ((pre ++ pagesPat ++ ds ++ post).drop i) = false)
    (hq : pageIdFromQuery u = none) :
    parse_confluence_url u = some (baseUrlOf u, String.mk ds) := by
  have heq : pre ++ pagesPat ++ ds ++ post = pre ++ (pagesPat ++ (ds ++ post)) := by
    simp [List.append_assoc]
  have hdrop : (pagesPat ++ (ds ++ post)).drop 7 = ds ++ post := rfl
  have hpref : pagesPat.isPrefixOf (pagesPat ++ (ds ++ post)) = true := by
    simp [pagesPat, List.isPrefixOf]
  have htake : takeDigits (ds ++ post) = ds :=
    takeWhile_append_all Char.isDigit ds post hall hpost
  have hemp : ds.isEmpty = false := by
    cases ds with
    | nil => exact absurd rfl hds
    | cons c t => rfl
  have hhit : hitAt (pagesPat ++ (ds ++ post)) = true := by
    unfold hitAt
    rw [hpref, hdrop, htake, hemp]
    rfl
  have hleft2 : ∀ i, i < pre.length →
      hitAt ((pre ++ (pagesPat ++ (ds ++ post))).drop i) = false := by
    intro i hi
    have h' := hleft i hi
    rwa [heq] at h'
  have hsearch : searchPagesId u.path.data = some ds := by
    rw [hpath, heq, searchPagesId_skip pre (pagesPat ++ (ds ++ post)) hleft2,
      searchPagesId_hit _ hhit, hdrop, htake]
  simp [parse_confluence_url, hq, hsearch]

/-- Witness for `pages_path_extraction` on the concrete URL
`https://example.com/spaces/X/pages/12345/My+Title`. -/
theorem pages_path_extraction_witness :
    parse_confluence_url
        (ParsedUrl.mk "https" "example.com" "/spaces/X/pages/12345/My+Title" "") =
      some (baseUrlOf (ParsedUrl.mk "https" "example.com" "/spaces/X/pages/12345/My+Title" ""),
        String.mk ['1', '2', '3', '4', '5']) :=
  pages_path_extraction (ParsedUrl.mk "https" "example.com" "/spaces/X/pages/12345/My+Title" "")
    "/spaces/X".data ['1', '2', '3', '4', '5'] "/My+Title".data
    (by decide) (by decide) (by decide) (by decide) (by decide) (by decide)

/-- Unfolding of `splitOnChar` on the empty text. -/
theorem splitOnChar_nil (sep : Char) : splitOnChar sep [] = [[]] := rfl

/-- Unfolding of `splitOnChar` on a non-empty text. -/
theorem splitOnChar_cons (sep c : Char) (rest : List Char) :
    splitOnChar sep (c :: rest) =
      if c = sep then [] :: splitOnChar sep rest
      else consHead c (splitOnChar sep rest) := rfl

/-- A split result is never the empty list of fields. -/
theorem splitOnChar_ne_nil (sep : Char) (l : List Char) : splitOnChar sep l ≠ [] := by
  induction l with
  | nil => simp [splitOnChar_nil]
  | cons c rest ih =>
    rw [splitOnChar_cons]
    split
    · simp
    · cases hsp : splitOnChar sep rest with
      | nil => exact absurd hsp ih
      | cons l ls => simp [consHead]

/-- A leading separator-free block followed by a separator splits off as the
first field. -/
theorem splitOnChar_append_sep (sep : Char) (xs ys : List Char) (h : sep ∉ xs) :
    splitOnChar sep (xs ++ sep :: ys) = xs :: splitOnChar sep ys := by
  induction xs with
  | nil => rw [List.nil_append, splitOnChar_cons, if_pos rfl]
  | cons x t ih =>
    have hx : ¬ x = sep := fun hx => h (by simp [hx])
    have ht : sep ∉ t := fun hm => h (by simp [hm])
    rw [List.cons_append, splitOnChar_cons, if_neg hx, ih ht]
    rfl

/-- A trailing separator contributes one trailing empty field. -/
theorem splitOnChar_append_last (sep : Char) (xs : List Char) :
    splitOnChar sep (xs ++ [sep]) = splitOnChar sep xs ++ [[]] := by
  induction xs with
  | nil => rw [List.nil_append, splitOnChar_cons, if_pos rfl]; rfl
  | cons x t ih =>
    by_cases hx : x = sep
    · subst hx
      rw [List.cons_append, splitOnChar_cons, if_pos rfl, ih, splitOnChar_cons,
        if_pos rfl]
      rfl
    · cases hsp : splitOnChar sep t with
      | nil => exact absurd hsp (splitOnChar_ne_nil sep t)
      | cons l ls =>
        rw [List.cons_append, splitOnChar_cons, if_neg hx, ih, hsp,
          splitOnChar_cons, if_neg hx, hsp]
        rfl

/-- Appending two newline-free strings yields a newline-free string. -/
theorem not_mem_nl_append (s t : String) (hs : '\n' ∉ s.data) (ht : '\n' ∉ t.data) :
    '\n' ∉ (s ++ t).data := by
  rw [String.data_append]
  simp only [List.mem_append]
  rintro (h | h)
  · exact hs h
  · exact ht h

/-- Splitting the assembled block into lines: five header lines, one empty
line, the body's lines, one empty line, and the empty artifact of the final
newline. All header fields are assumed newline-free. -/
theorem format_markdown_content_lines (title link space creator updated body : String)
    (h1 : '\n' ∉ title.data) (h2 : '\n' ∉ link.data) (h3 : '\n' ∉ space.data)
    (h4 : '\n' ∉ creator.data) (h5 : '\n' ∉ updated.data) :
    splitLines (format_markdown_content title link space creator updated body).data =
      ("# " ++ title).data :: ("URL: " ++ link).data :: ("スペース: " ++ space).data ::
      ("作成者: " ++ creator).data :: ("最終更新日: " ++ updated).data :: [] ::
      (splitLines body.data ++ [[], []]) := by
  have e : (format_markdown_content title link space creator updated body).data =
      ("# " ++ title).data ++ '\n' ::
        (("URL: " ++ link).data ++ '\n' ::
          (("スペース: " ++ space).data ++ '\n' ::
            (("作成者: " ++ creator).data ++ '\n' ::
              (("最終更新日: " ++ updated).data ++ '\n' ::
                ('\n' :: (body.data ++ ['\n', '\n'])))))) := by
    simp only [format_markdown_content, String.data_append, List.append_assoc]
    rfl
  have n1 : '\n' ∉ ("# " ++ title).data := not_mem_nl_append _ _ (by decide) h1
  have n2 : '\n' ∉ ("URL: " ++ link).data := not_mem_nl_append _ _ (by decide) h2
  have n3 : '\n' ∉ ("スペース: " ++ space).data := not_mem_nl_append _ _ (by decide) h3
  have n4 : '\n' ∉ ("作成者: " ++ creator).data := not_mem_nl_append _ _ (by decide) h4
  have n5 : '\n' ∉ ("最終更新日: " ++ updated).data :=
    not_mem_nl_append _ _ (by decide) h5
  have etail : body.data ++ ['\n', '\n'] = (body.data ++ ['\n']) ++ ['\n'] := by
    simp [List.append_assoc]
  unfold splitLines
  rw [e, splitOnChar_append_sep '\n' _ _ n1, splitOnChar_append_sep '\n' _ _ n2,
    splitOnChar_append_sep '\n' _ _ n3, splitOnChar_append_sep '\n' _ _ n4,
    splitOnChar_append_sep '\n' _ _ n5, splitOnChar_cons, if_pos rfl, etail,
    splitOnChar_append_last, splitOnChar_append_last]
  simp

/-- C3: the block appended for a fetched page is exactly a five-line preamble
(title as H1, URL line, space line, author line, last-updated line, in that
order), one blank line, the converted Markdown body, and a trailing blank line
(the final newline contributes the last empty artifact of the line split);
the header fields are assumed newline-free. -/
theorem block_structure (net : String → UserResponse) (mdConv : String → String)
    (page : Page) (url : String) (cache : List (String × String))
    (h1 : '\n' ∉ (pageTitleOf page).data)
    (h2 : '\n' ∉ (pageLinkOf page url).data)
    (h3 : '\n' ∉ (pyStr (spaceNameOf page)).data)
    (h4 : '\n' ∉ (get_display_name (creatorAccountId page) net cache).1.data)
    (h5 : '\n' ∉ (lastUpdatedOf page).data) :
    splitLines (renderPage net mdConv page url cache).1.data =
      ("# " ++ pageTitleOf page).data ::
      ("URL: " ++ pageLinkOf page url).data ::
      ("スペース: " ++ pyStr (spaceNameOf page)).data ::
      ("作成者: " ++ (get_display_name (creatorAccountId page) net cache).1).data ::
      ("最終更新日: " ++ lastUpdatedOf page).data ::
      [] ::
      (splitLines (extract_data_from_html mdConv (pageContents page)).data ++ [[], []]) := by
  have hr : (renderPage net mdConv page url cache).1 =
      format_markdown_content (pageTitleOf page) (pageLinkOf page url)
        (pyStr (spaceNameOf page))
        (get_display_name (creatorAccountId page) net cache).1
        (lastUpdatedOf page) (extract_data_from_html mdConv (pageContents page)) := rfl
  rw [hr]
  exact format_markdown_content_lines _ _ _ _ _ _ h1 h2 h3 h4 h5

/-- Witness for `block_structure` on the concrete page of the spec's example:
title `Spec`, space name `ENG`, creator resolving to `Jane Doe`, last updated
`2 days ago`, body converting to `# Hi`. -/
theorem block_structure_witness :
    splitLines (renderPage (fun _ => UserResponse.mk 200 (some "Jane Doe"))
        (fun _ => "# Hi")
        (Page.mk (some "Spec") (some (PageBody.mk (some (PageStorage.mk (some "<h1>Hi</h1>")))))
          (some (PageHistory.mk (some (PageCreatedBy.mk (some "u1")))))
          (some (PageSpace.mk (some "KEY") (some "ENG")))
          (some (PageLinks.mk (some "https://example.com/wiki/x")))
          (some (PageVersion.mk (some "2 days ago"))))
        "https://in.example/p" []).1.data =
      ("# " ++ "Spec").data ::
      ("URL: " ++ "https://example.com/wiki/x").data ::
      ("スペース: " ++ "ENG").data ::
      ("作成者: " ++ "Jane Doe").data ::
      ("最終更新日: " ++ "2 days ago").data ::
      [] ::
      (splitLines "# Hi".data ++ [[], []]) :=
  block_structure (fun _ => UserResponse.mk 200 (some "Jane Doe")) (fun _ => "# Hi")
    (Page.mk (some "Spec") (some (PageBody.mk (some (PageStorage.mk (some "<h1>Hi</h1>")))))
      (some (PageHistory.mk (some (PageCreatedBy.mk (some "u1")))))
      (some (PageSpace.mk (some "KEY") (some "ENG")))
      (some (PageLinks.mk (some "https://example.com/wiki/x")))
      (some (PageVersion.mk (some "2 days ago"))))
    "https://in.example/p" [] (by decide) (by decide) (by decide) (by decide) (by decide)

/-- C6: in a 3-URL batch where all three URLs parse and the page fetch fails
for the second URL only, exactly the two blocks for URLs 1 and 3 are appended,
in input order (with the user cache threaded from block 1 into block 3), and
the batch runs to completion. -/
theorem batch_skip_failed_fetch
    (urlparse : String → ParsedUrl) (fetch : String → String → Option Page)
    (net : String → UserResponse) (mdConv : String → String)
    (u1 u2 u3 b1 p1 b2 p2 b3 p3 : String) (pg1 pg3 : Page)
    (h1 : parse_confluence_url (urlparse u1) = some (b1, p1))
    (h2 : parse_confluence_url (urlparse u2) = some (b2, p2))
    (h3 : parse_confluence_url (urlparse u3) = some (b3, p3))
    (hp1 : p1 ≠ "") (hb1 : b1 ≠ "") (hp2 : p2 ≠ "") (hb2 : b2 ≠ "")
    (hp3 : p3 ≠ "") (hb3 : b3 ≠ "")
    (hf1 : fetch p1 b1 = some pg1) (hf2 : fetch p2 b2 = none)
    (hf3 : fetch p3 b3 = some pg3) :
    (process_pages_from_urls urlparse fetch net mdConv [u1, u2, u3] []).1 =
      [(renderPage net mdConv pg1 u1 []).1,
       (renderPage net mdConv pg3 u3 (renderPage net mdConv pg1 u1 []).2.1).1] := by
  simp [process_pages_from_urls, h1, h2, h3, hp1, hb1, hp2, hb2, hp3, hb3,
    hf1, hf2, hf3]

/-- Witness for `batch_skip_failed_fetch` on a concrete 3-URL batch whose
second fetch fails. -/
theorem batch_skip_failed_fetch_witness :
    (process_pages_from_urls (fun s => ParsedUrl.mk "https" "x" s "")
        (fun pid _ => if pid = "2" then none else some (Page.mk none none none none none none))
        (fun _ => UserResponse.mk 200 none) (fun s => s)
        ["/pages/1", "/pages/2", "/pages/3"] []).1 =
      [(renderPage (fun _ => UserResponse.mk 200 none) (fun s => s)
          (Page.mk none none none none none none) "/pages/1" []).1,
       (renderPage (fun _ => UserResponse.mk 200 none) (fun s => s)
          (Page.mk none none none none none none) "/pages/3"
          (renderPage (fun _ => UserResponse.mk 200 none) (fun s => s)
            (Page.mk none none none none none none) "/pages/1" []).2.1).1] :=
  batch_skip_failed_fetch (fun s => ParsedUrl.mk "https" "x" s "")
    (fun pid _ => if pid = "2" then none else some (Page.mk none none none none none none))
    (fun _ => UserResponse.mk 200 none) (fun s => s)
    "/pages/1" "/pages/2" "/pages/3" "https://x/wiki" "1" "https://x/wiki" "2"
    "https://x/wiki" "3" (Page.mk none none none none none none)
    (Page.mk none none none none none none)
    (by decide) (by decide) (by decide) (by decide) (by decide) (by decide)
    (by decide) (by decide) (by decide) (by decide) (by decide) (by decide)

/-- C8: the run aborts, with zero network calls, exactly on the three
configuration errors — a falsy credential, a missing URL file, or a URL list
that is empty after stripping blank lines — and otherwise runs the batch to
completion over the stripped URL list. -/
theorem main_config_abort (api_token user_name : Option String)
    (urlFile : Option (List String)) (urlparse : String → ParsedUrl)
    (fetch : String → String → Option Page) (net : String → UserResponse)
    (mdConv : String → String) :
    ((pyTruthyStr api_token && pyTruthyStr user_name) = false →
      mainRun api_token user_name urlFile urlparse fetch net mdConv =
        (MainResult.missingCredentials, 0)) ∧
    ((pyTruthyStr api_token && pyTruthyStr user_name) = true → urlFile = none →
      mainRun api_token user_name urlFile urlparse fetch net mdConv =
        (MainResult.missingUrlFile, 0)) ∧
    (∀ fileLines, (pyTruthyStr api_token && pyTruthyStr user_name) = true →
      urlFile = some fileLines → stripLines fileLines = [] →
      mainRun api_token user_name urlFile urlparse fetch net mdConv =
        (MainResult.emptyUrlList, 0)) ∧
    (∀ fileLines, (pyTruthyStr api_token && pyTruthyStr user_name) = true →
      urlFile = some fileLines → stripLines fileLines ≠ [] →
      mainRun api_token user_name urlFile urlparse fetch net mdConv =
        (MainResult.ran
            (process_pages_from_urls urlparse fetch net mdConv (stripLines fileLines) []).1,
          (process_pages_from_urls urlparse fetch net mdConv (stripLines fileLines) []).2)) := by
  refine ⟨?_, ?_, ?_, ?_⟩
  · intro hc
    simp [mainRun, hc]
  · intro hc hf
    simp [mainRun, hc, hf]
  · intro fileLines hc hf hempty
    simp [mainRun, hc, hf, hempty]
  · intro fileLines hc hf hne
    simp [mainRun, hc, hf, hne]

/-- Witness for `main_config_abort`: all four branches at concrete inputs —
missing token, missing URL file, all-blank URL file, and a one-URL run. -/
theorem main_config_abort_witness :
    (mainRun none (some "user") (some ["u"]) (fun s => ParsedUrl.mk "https" "x" s "")
        (fun _ _ => none) (fun _ => UserResponse.mk 200 none) (fun s => s) =
      (MainResult.missingCredentials, 0)) ∧
    (mainRun (some "tok") (some "user") none (fun s => ParsedUrl.mk "https" "x" s "")
        (fun _ _ => none) (fun _ => UserResponse.mk 200 none) (fun s => s) =
      (MainResult.missingUrlFile, 0)) ∧
    (mainRun (some "tok") (some "user") (some ["", "  "])
        (fun s => ParsedUrl.mk "https" "x" s "")
        (fun _ _ => none) (fun _ => UserResponse.mk 200 none) (fun s => s) =
      (MainResult.emptyUrlList, 0)) ∧
    (mainRun (some "tok") (some "user") (some ["/pages/1"])
        (fun s => ParsedUrl.mk "https" "x" s "")
        (fun _ _ => none) (fun _ => UserResponse.mk 200 none) (fun s => s) =
      (MainResult.ran
          (process_pages_from_urls (fun s => ParsedUrl.mk "https" "x" s "")
            (fun _ _ => none) (fun _ => UserResponse.mk 200 none) (fun s => s)
            (stripLines ["/pages/1"]) []).1,
        (process_pages_from_urls (fun s => ParsedUrl.mk "https" "x" s "")
          (fun _ _ => none) (fun _ => UserResponse.mk 200 none) (fun s => s)
          (stripLines ["/pages/1"]) []).2)) :=
  ⟨(main_config_abort none (some "user") (some ["u"]) _ _ _ _).1 (by decide),
   (main_config_abort (some "tok") (some "user") none _ _ _ _).2.1 (by decide) rfl,
   (main_config_abort (some "tok") (some "user") (some ["", "  "]) _ _ _ _).2.2.1
     ["", "  "] (by decide) rfl (by decide),
   (main_config_abort (some "tok") (some "user") (some ["/pages/1"]) _ _ _ _).2.2.2
     ["/pages/1"] (by decide) rfl (by decide)⟩
